import Mathlib

/-
Verification of the job-orchestration spec against the repository's
frontend sources (src/frontend/src/types/index.ts, the zustand download-job
store, src/frontend/src/components/DownloadJobs.tsx and the Web-Vitals
rating helper).  The backend handler (src/index.ts) is not part of the
source tree; where a claim depends on it, the definition is modelled from
the spec and marked as such in its doc comment.
-/

/-- Status union of the dashboard-feed DownloadJob record
(src/frontend/src/types/index.ts lines 8-19):
"pending" | "processing" | "completed" | "failed". -/
inductive JobStatus
  | pending
  | processing
  | completed
  | failed
deriving DecidableEq

/-- String form of a JobStatus, as serialized at the interface. -/
def JobStatus.str : JobStatus → String
  | .pending => "pending"
  | .processing => "processing"
  | .completed => "completed"
  | .failed => "failed"

/-- Status union of the UI-state DownloadJob record
(src/frontend/src/types/index.ts lines 73-81):
"initiated" | "processing" | "completed" | "failed". -/
inductive UIStatus
  | initiated
  | processing
  | completed
  | failed
deriving DecidableEq

/-- String form of a UIStatus, as serialized at the interface. -/
def UIStatus.str : UIStatus → String
  | .initiated => "initiated"
  | .processing => "processing"
  | .completed => "completed"
  | .failed => "failed"

/-- The five status values named by the spec (section 3). -/
def fiveSpecStatuses : List String :=
  ["pending", "processing", "completed", "failed", "cancelled"]

/-- Progress sub-record of the dashboard-feed DownloadJob. -/
structure JobProgress where
  current : Int
  total : Int
  percentage : Int
deriving DecidableEq

/-- Result sub-record of the dashboard-feed DownloadJob. -/
structure JobResult where
  downloadUrl : String
deriving DecidableEq

/-- Dashboard-feed DownloadJob record (src/frontend/src/types/index.ts
lines 8-19); it has an optional result and no error field. -/
structure DownloadJob where
  jobId : String
  status : JobStatus
  progress : Option JobProgress
  result : Option JobResult
deriving DecidableEq

/-- UI-state DownloadJob record (src/frontend/src/types/index.ts
lines 73-81), the element type of the zustand download-job store; it has
an optional error and no result field. -/
structure UIDownloadJob where
  id : String
  file_ids : List Int
  status : UIStatus
  created_at : String
  completed_at : Option String
  trace_id : Option String
  error : Option String
deriving DecidableEq

/-- A partial update (the TypeScript Partial of the UI-state DownloadJob)
as passed to the store's updateJob; a field is none when the key is
absent from the update object. -/
structure JobUpdate where
  id : Option String
  file_ids : Option (List Int)
  status : Option UIStatus
  created_at : Option String
  completed_at : Option (Option String)
  trace_id : Option (Option String)
  error : Option (Option String)
deriving DecidableEq

/-- Object-spread merge of a job with a partial update, the semantics of
the TypeScript expression spreading job then updates: keys present in the
update override the job's fields. -/
def mergeJob (j : UIDownloadJob) (u : JobUpdate) : UIDownloadJob :=
  { id := u.id.getD j.id
    file_ids := u.file_ids.getD j.file_ids
    status := u.status.getD j.status
    created_at := u.created_at.getD j.created_at
    completed_at := u.completed_at.getD j.completed_at
    trace_id := u.trace_id.getD j.trace_id
    error := u.error.getD j.error }

/-- State of the zustand download-job store (src/frontend/src/stores,
useDownloadJobStore): jobs list, loading flag, error message. -/
structure DownloadJobState where
  jobs : List UIDownloadJob
  loading : Bool
  error : Option String
deriving DecidableEq

/-- Initial store state: empty jobs, not loading, no error. -/
def initialState : DownloadJobState :=
  { jobs := [], loading := false, error := none }

/-- The map the store's updateJob applies to the jobs list: a job whose id
matches is replaced by the spread-merge with the update, others are kept. -/
def updateJobList (id : String) (u : JobUpdate) (jobs : List UIDownloadJob) :
    List UIDownloadJob :=
  jobs.map (fun job => if job.id = id then mergeJob job u else job)

/-- Store action addJob: prepends the new job. -/
def addJob (job : UIDownloadJob) (s : DownloadJobState) : DownloadJobState :=
  { s with jobs := job :: s.jobs }

/-- Store action updateJob: maps the merge over the jobs list. -/
def updateJob (id : String) (u : JobUpdate) (s : DownloadJobState) :
    DownloadJobState :=
  { s with jobs := updateJobList id u s.jobs }

/-- Store action removeJob: filters out jobs with the given id. -/
def removeJob (id : String) (s : DownloadJobState) : DownloadJobState :=
  { s with jobs := s.jobs.filter (fun job => job.id ≠ id) }

/-- Store action setJobs: replaces the whole jobs list. -/
def setJobs (jobs : List UIDownloadJob) (s : DownloadJobState) :
    DownloadJobState :=
  { s with jobs := jobs }

/-- Store action setLoading. -/
def setLoading (b : Bool) (s : DownloadJobState) : DownloadJobState :=
  { s with loading := b }

/-- Store action setError. -/
def setError (e : Option String) (s : DownloadJobState) : DownloadJobState :=
  { s with error := e }

/-- Store action reset: back to the initial state. -/
def resetStore (_s : DownloadJobState) : DownloadJobState :=
  { jobs := [], loading := false, error := none }

/-- The store's operations, as an explicit alphabet for reachability. -/
inductive StoreOp
  | addJob (job : UIDownloadJob)
  | updateJob (id : String) (u : JobUpdate)
  | removeJob (id : String)
  | setJobs (jobs : List UIDownloadJob)
  | setLoading (b : Bool)
  | setError (e : Option String)
  | reset
deriving DecidableEq

/-- Interpretation of one store operation. -/
def applyOp : StoreOp → DownloadJobState → DownloadJobState
  | .addJob j, s => addJob j s
  | .updateJob id u, s => updateJob id u s
  | .removeJob id, s => removeJob id s
  | .setJobs js, s => setJobs js s
  | .setLoading b, s => setLoading b s
  | .setError e, s => setError e s
  | .reset, s => resetStore s

/-- Interpretation of a sequence of store operations, left to right. -/
def applyOps (ops : List StoreOp) (s : DownloadJobState) : DownloadJobState :=
  ops.foldl (fun s op => applyOp op s) s

/-- Terminal statuses per the spec's state machine, restricted to the
statuses the UI-state record can hold (the spec also lists cancelled,
which the code's status union does not contain). -/
def isTerminal : UIStatus → Bool
  | .completed => true
  | .failed => true
  | _ => false

/-- The UI-state record has no result field, so a result is never
populated on it; this definition records that fact of the type. -/
def resultPopulated (_j : UIDownloadJob) : Bool := false

/-- The error field of a UI-state record is populated when present. -/
def errorPopulated (j : UIDownloadJob) : Bool := j.error.isSome

/-- A status badge as built by getStatusBadge in
src/frontend/src/components/DownloadJobs.tsx: an icon component name and a
colour class string. -/
structure Badge where
  icon : String
  color : String
deriving DecidableEq

/-- The badges lookup table of getStatusBadge: the object literal keyed by
the four status strings; any other key is absent. -/
def badges (status : String) : Option Badge :=
  if status = "pending" then
    some { icon := "Clock", color := "bg-blue-500/20 text-blue-400 border-blue-500/30" }
  else if status = "processing" then
    some { icon := "Loader", color := "bg-yellow-500/20 text-yellow-400 border-yellow-500/30" }
  else if status = "completed" then
    some { icon := "CheckCircle2", color := "bg-green-500/20 text-green-400 border-green-500/30" }
  else if status = "failed" then
    some { icon := "XCircle", color := "bg-red-500/20 text-red-400 border-red-500/30" }
  else
    none

/-- The pending badge, the fallback of the lookup. -/
def pendingBadge : Badge :=
  { icon := "Clock", color := "bg-blue-500/20 text-blue-400 border-blue-500/30" }

/-- getStatusBadge from DownloadJobs.tsx: look the status up in the badges
object and fall back to the pending badge when the lookup is undefined. -/
def getStatusBadge (status : String) : Badge :=
  (badges status).getD pendingBadge

/-- The rendered span of getStatusBadge: badge icon, badge colour, and the
raw status string as the visible label. -/
structure StatusBadgeView where
  icon : String
  color : String
  label : String
deriving DecidableEq

/-- Rendering of the status badge span: the label is the status string
itself, next to the badge icon and colour. -/
def renderStatusBadge (status : String) : StatusBadgeView :=
  { icon := (getStatusBadge status).icon
    color := (getStatusBadge status).color
    label := status }

/-- Web-Vitals rating values returned by getRating in
src/frontend/src/utils/observability.ts. -/
inductive Rating
  | good
  | needsImprovement
  | poor
deriving DecidableEq

/-- The THRESHOLDS table of observability.ts: good and poor cut-off per
metric name; names outside the table have no thresholds. -/
def THRESHOLDS (name : String) : Option (ℚ × ℚ) :=
  if name = "LCP" then some (2500, 4000)
  else if name = "FID" then some (100, 300)
  else if name = "CLS" then some (1/10, 1/4)
  else if name = "FCP" then some (1800, 3000)
  else if name = "TTFB" then some (800, 1800)
  else if name = "INP" then some (200, 500)
  else none

/-- getRating from observability.ts: good when no threshold is configured,
else good when the value is at most the good cut-off, needs-improvement
when at most the poor cut-off, poor otherwise. -/
def getRating (name : String) (value : ℚ) : Rating :=
  match THRESHOLDS name with
  | none => .good
  | some t =>
    if value ≤ t.1 then .good
    else if value ≤ t.2 then .needsImprovement
    else .poor

/-- Backend error taxonomy from the spec, restricted to what the claims
need. -/
inductive ApiError
  | InvalidInput
deriving DecidableEq

/-- DownloadInitiateRequest (src/frontend/src/types/index.ts lines 42-45):
file ids as JSON numbers and an optional notify URL; the type has no
idempotency-key field. -/
structure DownloadInitiateRequest where
  file_ids : List ℚ
  notification_url : Option String
deriving DecidableEq

/-- DownloadInitiateResponse (src/frontend/src/types/index.ts lines
47-52); its status is the string literal type containing only
"initiated". -/
structure DownloadInitiateResponse where
  job_id : String
  status : String
  file_count : Nat
  estimated_time_seconds : Nat
deriving DecidableEq

/-- WorkItem of the queue, per the spec's data model: the job id and the
enqueue instant (modelled as the creation counter value). -/
structure WorkItem where
  job_id : String
  enqueued_at : Nat
deriving DecidableEq

/-- Modelled from the spec: state of the Job Manager and its Queue
(the backend src/index.ts that implements them is not under src; the
repository's implementation guide only quotes fragments of it).  It holds
the fresh-id counter and the ordered list of enqueued work items. -/
structure ManagerState where
  nextId : Nat
  queue : List WorkItem
deriving DecidableEq

/-- The empty manager state: no jobs created yet, empty queue. -/
def initialManagerState : ManagerState :=
  { nextId := 0, queue := [] }

/-- Fresh job identifier derived from the creation counter. -/
def freshJobId (n : Nat) : String :=
  "job-" ++ toString n

/-- Modelled from the spec: the per-file-id validation of the missing
backend src/index.ts, following the zod schema its implementation guide
quotes verbatim (z.number().int().min(10000).max(100000000)): the JSON
number must be an integer between 10000 and 100000000. -/
def DownloadCheckRequestSchema (v : ℚ) : Bool :=
  v.den == 1 && decide ((10000 : ℚ) ≤ v) && decide (v ≤ (100000000 : ℚ))

/-- Modelled from the spec: CreateJob of the missing backend
src/index.ts.  It rejects with InvalidInput, leaving the state unchanged,
when the file-id list is empty, exceeds the configured maximum count, or
contains an id that fails the schema; otherwise it issues a fresh job id,
appends exactly one WorkItem to the queue, and answers with the response
literal status "initiated" fixed by the DownloadInitiateResponse type in
src.  The request type carries no idempotency key, so no deduplication
against earlier submissions takes place. -/
def createJob (maxCount : Nat) (req : DownloadInitiateRequest)
    (s : ManagerState) : Except ApiError DownloadInitiateResponse × ManagerState :=
  if req.file_ids.isEmpty then (.error .InvalidInput, s)
  else if maxCount < req.file_ids.length then (.error .InvalidInput, s)
  else if req.file_ids.all DownloadCheckRequestSchema then
    let jobId := freshJobId s.nextId
    (.ok { job_id := jobId
           status := "initiated"
           file_count := req.file_ids.length
           estimated_time_seconds := req.file_ids.length * 5 },
     { nextId := s.nextId + 1
       queue := s.queue ++ [{ job_id := jobId, enqueued_at := s.nextId }] })
  else (.error .InvalidInput, s)

/-- The status carried by a successful initiate response, none on error. -/
def responseStatus (r : Except ApiError DownloadInitiateResponse) :
    Option String :=
  match r with
  | .ok resp => some resp.status
  | .error _ => none

/-- The job id carried by a successful initiate response, none on error. -/
def responseJobId (r : Except ApiError DownloadInitiateResponse) :
    Option String :=
  match r with
  | .ok resp => some resp.job_id
  | .error _ => none

/-- The update object with no keys present. -/
def emptyUpdate : JobUpdate :=
  { id := none, file_ids := none, status := none, created_at := none
    completed_at := none, trace_id := none, error := none }

/-- The update object carrying only a status key set to processing. -/
def statusToProcessing : JobUpdate :=
  { id := none, file_ids := none, status := some .processing
    created_at := none, completed_at := none, trace_id := none, error := none }

/-- A sample store job in the processing state. -/
def jobA : UIDownloadJob :=
  { id := "a", file_ids := [70000], status := .processing, created_at := "t0"
    completed_at := none, trace_id := none, error := none }

/-- A sample store job that has reached the terminal completed state. -/
def completedJob : UIDownloadJob :=
  { id := "j1", file_ids := [70000], status := .completed, created_at := "t0"
    completed_at := some "t1", trace_id := none, error := none }

/-- A sample store job that is completed yet carries an error message. -/
def completedWithError : UIDownloadJob :=
  { id := "j2", file_ids := [70000], status := .completed, created_at := "t0"
    completed_at := some "t1", trace_id := none, error := some "boom" }

/-- A sample store job that is failed and carries no error message. -/
def failedNoMessage : UIDownloadJob :=
  { id := "j3", file_ids := [70000], status := .failed, created_at := "t0"
    completed_at := none, trace_id := none, error := none }

/-- A sample dashboard-feed job in the failed state. -/
def failedFeedJob : DownloadJob :=
  { jobId := "j4", status := .failed, progress := none, result := none }

/-- A valid initiate request for the single file id 70000. -/
def req70000 : DownloadInitiateRequest :=
  { file_ids := [(70000 : ℚ)], notification_url := none }

/-- The response the modelled CreateJob gives for req70000 from the empty
manager state. -/
def resp0 : DownloadInitiateResponse :=
  { job_id := "job-0", status := "initiated", file_count := 1
    estimated_time_seconds := 5 }

/-- The response the modelled CreateJob gives for a second identical
submission of req70000. -/
def resp1b : DownloadInitiateResponse :=
  { job_id := "job-1", status := "initiated", file_count := 1
    estimated_time_seconds := 5 }

/-- Manager state after one successful creation from the empty state. -/
def ms1 : ManagerState :=
  { nextId := 1, queue := [{ job_id := "job-0", enqueued_at := 0 }] }

/-- Manager state after two successful identical creations. -/
def ms2 : ManagerState :=
  { nextId := 2
    queue := [{ job_id := "job-0", enqueued_at := 0 },
              { job_id := "job-1", enqueued_at := 1 }] }

theorem updateJobList_zip (id : String) (u : JobUpdate) :
    ∀ (jobs : List UIDownloadJob) (p : UIDownloadJob × UIDownloadJob),
      p ∈ jobs.zip (updateJobList id u jobs) →
      p.2 = if p.1.id = id then mergeJob p.1 u else p.1 := by
  intro jobs
  induction jobs with
  | nil => intro p hp; simp [updateJobList] at hp
  | cons a t ih =>
    intro p hp
    rw [updateJobList, List.map_cons, List.zip_cons_cons] at hp
    rcases List.mem_cons.mp hp with h | h
    · subst h; rfl
    · exact ih p h

theorem updateJobList_no_match (id : String) (u : JobUpdate) :
    ∀ jobs : List UIDownloadJob, (∀ j ∈ jobs, j.id ≠ id) →
      updateJobList id u jobs = jobs := by
  intro jobs
  induction jobs with
  | nil => intro _; rfl
  | cons a t ih =>
    intro h
    rw [updateJobList, List.map_cons]
    rw [if_neg (h a (List.mem_cons_self a t))]
    have ht := ih (fun j hj => h j (List.mem_cons_of_mem a hj))
    rw [updateJobList] at ht
    rw [ht]

/-- C8: the store's updateJob preserves the length and order of the jobs
list and the other state fields, leaves every job whose id differs from
the given id unchanged, replaces each job with a matching id by the
spread-merge of that job with the update, and is the identity on the
state when no job has the given id. -/
theorem updateJob_frame (s : DownloadJobState) (id : String) (u : JobUpdate) :
    (updateJob id u s).jobs.length = s.jobs.length ∧
    (updateJob id u s).loading = s.loading ∧
    (updateJob id u s).error = s.error ∧
    (∀ p ∈ s.jobs.zip (updateJob id u s).jobs,
      (p.1.id ≠ id → p.2 = p.1) ∧ (p.1.id = id → p.2 = mergeJob p.1 u)) ∧
    ((∀ j ∈ s.jobs, j.id ≠ id) → updateJob id u s = s) := by
  refine ⟨by simp [updateJob, updateJobList], rfl, rfl, ?_, ?_⟩
  · intro p hp
    have h := updateJobList_zip id u s.jobs p hp
    constructor
    · intro hne; rw [h, if_neg hne]
    · intro heq; rw [h, if_pos heq]
  · intro h
    have h2 := updateJobList_no_match id u s.jobs h
    obtain ⟨js, l, e⟩ := s
    simp only [updateJob] at *
    rw [h2]

/-- C8 witness: an update addressed to an id absent from the list is the
identity on a concrete one-job store state. -/
theorem updateJob_frame_witness :
    updateJob "b" emptyUpdate { jobs := [jobA], loading := false, error := none }
      = { jobs := [jobA], loading := false, error := none } :=
  (updateJob_frame { jobs := [jobA], loading := false, error := none } "b"
    emptyUpdate).2.2.2.2 (by decide)

/-- C9: getStatusBadge is total and for every status string outside
pending, processing, completed, failed it falls back to the pending
badge. -/
theorem getStatusBadge_fallback (s : String) (h1 : s ≠ "pending")
    (h2 : s ≠ "processing") (h3 : s ≠ "completed") (h4 : s ≠ "failed") :
    getStatusBadge s = pendingBadge := by
  unfold getStatusBadge badges
  rw [if_neg h1, if_neg h2, if_neg h3, if_neg h4]
  rfl

/-- C9 witness: the spec's cancelled status, unknown to the badges table,
renders as the pending badge. -/
theorem getStatusBadge_fallback_witness :
    getStatusBadge "cancelled" = pendingBadge :=
  getStatusBadge_fallback "cancelled" (by decide) (by decide) (by decide)
    (by decide)

/-- C1 counterexample: the status value initiated, carried by the UI-state
DownloadJob record, is not among the spec's five status values; in
particular the claim that only pending, processing, completed, failed,
cancelled are observable fails at UIStatus.initiated. -/
theorem initiated_not_among_spec_statuses :
    UIStatus.str UIStatus.initiated ∉ fiveSpecStatuses := by decide

/-- C1 amended: the dashboard-feed job status is always one of pending,
processing, completed, failed, the UI-state job status is always one of
initiated, processing, completed, failed, and neither ever takes the
value cancelled. -/
theorem observable_status_values :
    (∀ s : JobStatus,
      JobStatus.str s ∈ ["pending", "processing", "completed", "failed"]) ∧
    (∀ s : UIStatus,
      UIStatus.str s ∈ ["initiated", "processing", "completed", "failed"]) ∧
    (∀ s : JobStatus, JobStatus.str s ≠ "cancelled") ∧
    (∀ s : UIStatus, UIStatus.str s ≠ "cancelled") := by
  refine ⟨fun s => ?_, fun s => ?_, fun s => ?_, fun s => ?_⟩ <;>
    cases s <;> decide

/-- C2 counterexample: a job that has reached the terminal completed
status is changed by a subsequent store updateJob: its status moves back
to processing, so terminal states are not immutable in the store. -/
theorem terminal_job_mutated :
    isTerminal completedJob.status = true ∧
    (applyOps [StoreOp.addJob completedJob,
        StoreOp.updateJob "j1" statusToProcessing] initialState).jobs
      = [{ completedJob with status := UIStatus.processing }] ∧
    ({ completedJob with status := UIStatus.processing } : UIDownloadJob)
      ≠ completedJob := by
  exact ⟨rfl, by decide, by decide⟩

/-- C2 amended: the store enforces no terminal-state immutability:
updateJob merges the given partial update into the matching job even when
the job's status is terminal, so a terminal job's fields, status
included, can still change. -/
theorem updateJob_ignores_terminal (j : UIDownloadJob) (u : JobUpdate)
    (h : isTerminal j.status = true) :
    (updateJob j.id u { jobs := [j], loading := false, error := none }).jobs
      = [mergeJob j u] := by
  simp [updateJob, updateJobList]

/-- C2 witness: updateJob on a concrete completed job applies the merge. -/
theorem updateJob_ignores_terminal_witness :
    (updateJob "j1" statusToProcessing
        { jobs := [completedJob], loading := false, error := none }).jobs
      = [mergeJob completedJob statusToProcessing] :=
  updateJob_ignores_terminal completedJob statusToProcessing (by decide)

/-- C6 counterexample: a job record with the error field populated while
its status is completed, not failed, is reachable in the store by a
single addJob, so the populated-only-when-failed invariant does not hold
and is not preserved by the store's operations. -/
theorem error_populated_without_failed :
    (applyOps [StoreOp.addJob completedWithError] initialState).jobs
      = [completedWithError] ∧
    errorPopulated completedWithError = true ∧
    completedWithError.status ≠ UIStatus.failed := by decide

/-- C6 amended: in every reachable store state at most one of result and
error is populated on each job record, because the UI-state record type
has no result field at all; the store does not tie the optional error
field to the failed status. -/
theorem at_most_one_of_result_error (ops : List StoreOp) (j : UIDownloadJob)
    (hj : j ∈ (applyOps ops initialState).jobs) :
    ¬(resultPopulated j = true ∧ errorPopulated j = true) := by
  rintro ⟨hr, -⟩
  simp [resultPopulated] at hr

/-- C6 witness: instantiated on the reachable completed-with-error job. -/
theorem at_most_one_of_result_error_witness :
    ¬(resultPopulated completedWithError = true ∧
      errorPopulated completedWithError = true) :=
  at_most_one_of_result_error [StoreOp.addJob completedWithError]
    completedWithError (by decide)

/-- C7 counterexample: a failed job with no error message is reachable in
the store, so a client polling a failed job is not guaranteed any
error.message alongside status failed. -/
theorem failed_without_message :
    (applyOps [StoreOp.addJob failedNoMessage] initialState).jobs
      = [failedNoMessage] ∧
    failedNoMessage.status = UIStatus.failed ∧
    failedNoMessage.error = none := by decide

/-- C7 amended: a client observing a failed job always sees status failed
rendered (the badge for a failed job is the failed badge labelled with
the literal string failed), but an error message is not guaranteed: the
error field is optional and absent on reachable failed jobs. -/
theorem failed_badge_rendered (j : DownloadJob)
    (h : j.status = JobStatus.failed) :
    renderStatusBadge (JobStatus.str j.status) =
      { icon := "XCircle"
        color := "bg-red-500/20 text-red-400 border-red-500/30"
        label := "failed" } := by
  rw [h]; rfl

/-- C7 witness: the failed badge on a concrete failed feed job. -/
theorem failed_badge_rendered_witness :
    renderStatusBadge (JobStatus.str failedFeedJob.status) =
      { icon := "XCircle"
        color := "bg-red-500/20 text-red-400 border-red-500/30"
        label := "failed" } :=
  failed_badge_rendered failedFeedJob rfl

/-- C3 counterexample: the response of a successful create carries the
literal status initiated, fixed by the DownloadInitiateResponse type, not
pending as the claim states. -/
theorem create_response_not_pending :
    responseStatus (createJob 10 req70000 initialManagerState).1
      = some "initiated" ∧
    some "initiated" ≠ some "pending" := by
  exact ⟨by decide, by decide⟩

/-- C3 amended: for every input accepted by the modelled CreateJob, the
returned response carries the literal status initiated (not pending, the
interface's response type fixes the literal) and, when the fresh job id
is not already queued, a corresponding WorkItem exists in the queue
exactly once. -/
theorem create_ok_initiated_and_enqueued_once (maxCount : Nat)
    (req : DownloadInitiateRequest) (s : ManagerState)
    (resp : DownloadInitiateResponse) (s' : ManagerState)
    (hok : createJob maxCount req s = (.ok resp, s'))
    (hfresh : ∀ w ∈ s.queue, w.job_id ≠ freshJobId s.nextId) :
    resp.status = "initiated" ∧
    s'.queue.countP (fun w => w.job_id == resp.job_id) = 1 := by
  unfold createJob at hok
  split_ifs at hok with h1 h2 h3
  · exact absurd hok (by simp)
  · exact absurd hok (by simp)
  · simp only [Prod.mk.injEq, Except.ok.injEq] at hok
    obtain ⟨hresp, hs'⟩ := hok
    subst hresp hs'
    refine ⟨rfl, ?_⟩
    simp only [List.countP_append, List.countP_cons, List.countP_nil]
    have hz : s.queue.countP (fun w => w.job_id == freshJobId s.nextId) = 0 := by
      rw [List.countP_eq_zero]
      intro w hw
      simp only [beq_iff_eq]
      exact hfresh w hw
    simp [hz]
  · exact absurd hok (by simp)

/-- C3 witness: a concrete successful creation from the empty manager
state answers initiated and enqueues its WorkItem exactly once. -/
theorem create_ok_initiated_and_enqueued_once_witness :
    resp0.status = "initiated" ∧
    ms1.queue.countP (fun w => w.job_id == resp0.job_id) = 1 :=
  create_ok_initiated_and_enqueued_once 10 req70000 initialManagerState
    resp0 ms1 (by rfl) (by decide)

/-- C4: the modelled file-id validation accepts exactly the integers
between 10000 and 100000000, so -1 is rejected and 70000 accepted; a
create request carrying -1 fails with InvalidInput leaving the manager
state, its queue included, unchanged, and a request carrying 70000 is
accepted whenever the configured maximum count admits one file. -/
theorem file_id_validation_spec :
    (∀ v : ℚ, DownloadCheckRequestSchema v = true ↔
      ∃ n : ℤ, v = (n : ℚ) ∧ 10000 ≤ n ∧ n ≤ 100000000) ∧
    DownloadCheckRequestSchema (-1) = false ∧
    DownloadCheckRequestSchema 70000 = true ∧
    (∀ (maxCount : Nat) (s : ManagerState),
      createJob maxCount { file_ids := [(-1 : ℚ)], notification_url := none } s
        = (.error .InvalidInput, s)) ∧
    (∀ (maxCount : Nat) (s : ManagerState), 0 < maxCount →
      ∃ resp, (createJob maxCount req70000 s).1 = .ok resp) := by
  refine ⟨?_, by decide, by decide, ?_, ?_⟩
  · intro v
    unfold DownloadCheckRequestSchema
    simp only [Bool.and_eq_true, beq_iff_eq, decide_eq_true_eq]
    constructor
    · rintro ⟨⟨hden, hlo⟩, hhi⟩
      have hv : (v.num : ℚ) = v := (Rat.den_eq_one_iff v).mp hden
      refine ⟨v.num, hv.symm, ?_, ?_⟩
      · rw [← hv] at hlo; exact_mod_cast hlo
      · rw [← hv] at hhi; exact_mod_cast hhi
    · rintro ⟨n, rfl, hlo, hhi⟩
      refine ⟨⟨Rat.den_intCast n, ?_⟩, ?_⟩
      · exact_mod_cast hlo
      · exact_mod_cast hhi
  · intro maxCount s
    unfold createJob
    split_ifs with h1 h2 h3
    · rfl
    · rfl
    · exact absurd h3 (by decide)
    · rfl
  · intro maxCount s hmc
    unfold createJob
    split_ifs with h1 h2 h3
    · exact absurd h1 (by decide)
    · exact absurd h2 (by simp [req70000]; omega)
    · exact ⟨_, rfl⟩
    · exact absurd (by decide) h3

/-- C4 witness: the request for file id 70000 is accepted from the empty
manager state with maximum count 10. -/
theorem file_id_validation_spec_witness :
    ∃ resp, (createJob 10 req70000 initialManagerState).1 = Except.ok resp :=
  file_id_validation_spec.2.2.2.2 10 initialManagerState (by decide)

/-- C5 counterexample: re-submitting the identical initiate request (the
request type carries no idempotency key a client could repeat) while the
first job is still live yields a different job id and a second queue
entry, so creation is not idempotent. -/
theorem resubmission_not_idempotent :
    responseJobId (createJob 10 req70000 initialManagerState).1
      = some "job-0" ∧
    responseJobId
        (createJob 10 req70000 (createJob 10 req70000 initialManagerState).2).1
      = some "job-1" ∧
    some "job-0" ≠ some "job-1" ∧
    ((createJob 10 req70000
        (createJob 10 req70000 initialManagerState).2).2).queue.length = 2 := by
  exact ⟨by decide, by decide, by decide, by decide⟩

/-- C5 amended: the initiate request has no idempotency-key field, and the
modelled CreateJob deduplicates nothing: every successful re-submission
of the same request is assigned the next fresh job id and appends one
more WorkItem to the queue. -/
theorem create_always_fresh (maxCount : Nat) (req : DownloadInitiateRequest)
    (s : ManagerState) (resp1 resp2 : DownloadInitiateResponse)
    (s1 s2 : ManagerState)
    (hc1 : createJob maxCount req s = (.ok resp1, s1))
    (hc2 : createJob maxCount req s1 = (.ok resp2, s2)) :
    resp1.job_id = freshJobId s.nextId ∧
    resp2.job_id = freshJobId (s.nextId + 1) ∧
    s1.queue.length = s.queue.length + 1 ∧
    s2.queue.length = s1.queue.length + 1 := by
  unfold createJob at hc1 hc2
  split_ifs at hc1 with h1 h2 h3
  · exact absurd hc1 (by simp)
  · exact absurd hc1 (by simp)
  · simp only [Prod.mk.injEq, Except.ok.injEq] at hc1
    obtain ⟨hresp1, hs1⟩ := hc1
    subst hresp1 hs1
    simp only [if_neg h1, if_neg h2, if_pos h3, Prod.mk.injEq,
      Except.ok.injEq] at hc2
    obtain ⟨hresp2, hs2⟩ := hc2
    subst hresp2 hs2
    refine ⟨rfl, rfl, ?_, ?_⟩ <;> simp
  · exact absurd hc1 (by simp)

/-- C5 witness: two concrete identical submissions from the empty state
get the fresh ids of counters zero and one and grow the queue each
time. -/
theorem create_always_fresh_witness :
    resp0.job_id = freshJobId 0 ∧
    resp1b.job_id = freshJobId (0 + 1) ∧
    ms1.queue.length = initialManagerState.queue.length + 1 ∧
    ms2.queue.length = ms1.queue.length + 1 :=
  create_always_fresh 10 req70000 initialManagerState resp0 resp1b ms1 ms2
    (by rfl) (by rfl)

/-- C10: for every metric name with configured thresholds, getRating
answers good exactly when the value is at most the good cut-off,
needs-improvement exactly when it lies strictly above the good and at
most the poor cut-off, and poor exactly when it lies strictly above the
poor cut-off; a name with no configured thresholds rates good at every
value. -/
theorem getRating_spec (name : String) (v : ℚ) :
    (∀ g p : ℚ, THRESHOLDS name = some (g, p) →
      ((getRating name v = Rating.good ↔ v ≤ g) ∧
       (getRating name v = Rating.needsImprovement ↔ g < v ∧ v ≤ p) ∧
       (getRating name v = Rating.poor ↔ p < v))) ∧
    (THRESHOLDS name = none → getRating name v = Rating.good) := by
  constructor
  · intro g p h
    have hgp : g ≤ p := by
      unfold THRESHOLDS at h
      split_ifs at h <;>
        first
        | exact Option.noConfusion h
        | (simp only [Option.some.injEq, Prod.mk.injEq] at h
           obtain ⟨rfl, rfl⟩ := h
           norm_num)
    have hg : getRating name v =
        (if v ≤ g then Rating.good
         else if v ≤ p then Rating.needsImprovement else Rating.poor) := by
      unfold getRating
      rw [h]
    rw [hg]
    split_ifs with hv1 hv2
    · refine ⟨⟨fun _ => hv1, fun _ => rfl⟩, ?_, ?_⟩
      · constructor
        · intro hc; exact absurd hc (by decide)
        · rintro ⟨hgv, -⟩; linarith
      · constructor
        · intro hc; exact absurd hc (by decide)
        · intro hp; linarith
    · refine ⟨?_, ⟨fun _ => ⟨not_le.mp hv1, hv2⟩, fun _ => rfl⟩, ?_⟩
      · constructor
        · intro hc; exact absurd hc (by decide)
        · intro hvg; exact absurd hvg hv1
      · constructor
        · intro hc; exact absurd hc (by decide)
        · intro hp; linarith
    · refine ⟨?_, ?_, ⟨fun _ => not_le.mp hv2, fun _ => rfl⟩⟩
      · constructor
        · intro hc; exact absurd hc (by decide)
        · intro hvg; exact absurd hvg hv1
      · constructor
        · intro hc; exact absurd hc (by decide)
        · rintro ⟨-, hvp⟩; exact absurd hvp hv2
  · intro h
    unfold getRating
    rw [h]

/-- C10 witness: a largest-contentful-paint of 3000 rates
needs-improvement against the configured 2500 and 4000 cut-offs. -/
theorem getRating_spec_witness :
    getRating "LCP" 3000 = Rating.needsImprovement :=
  (((getRating_spec "LCP" 3000).1 2500 4000 (by decide)).2.1).mpr (by norm_num)
